import Mathlib

/-!
Verification of the cloud-cost-optimizer ML pipeline
(`backend/app/ml_pipeline.py`, `backend/app/ml/recommender.py`,
`backend/app/ml/risk_assessor.py`) against its specification.

Numbers are modelled as exact rationals (`ℚ`).  Where the Python code can
produce non-finite IEEE floats (`np.std`, `np.polyfit`), those intermediate
values are modelled by the extended-value type `EVal`, which has explicit
NaN and ±Infinity constructors, so that the sanitisation logic of the code
(`float(x) if not isnan and not isinf else 0.0`) can be stated and proved.
-/

namespace CloudCostOpt

/-! ## Definitions: shallow embedding of the pipeline code -/

/-- An IEEE-style extended value: a finite rational, NaN, or ±Infinity.
Used for the numerically inexact intermediates (`np.std`, `np.polyfit`)
of `_extract_resource_features`. -/
inductive EVal where
  | fin (q : ℚ)
  | nan
  | inf
  | ninf
deriving DecidableEq, Repr

/-- `float(x) if not np.isnan(x) and not np.isinf(x) else 0.0`
from `_extract_resource_features`. -/
def sanitize : EVal → EVal
  | .fin q => .fin q
  | _ => .fin 0

/-- A value is finite when it is a plain rational. -/
def EVal.isFinite : EVal → Bool
  | .fin _ => true
  | _ => false

/-- IEEE-style division on extended values (only the shapes the pipeline can
reach matter: the code guards the denominator to be a strictly positive
finite mean, while the numerator may be any extended value). -/
def EVal.div : EVal → EVal → EVal
  | .fin a, .fin b => if b = 0 then .nan else .fin (a / b)
  | .nan, _ => .nan
  | _, .nan => .nan
  | .inf, .fin b => if b < 0 then .ninf else .inf
  | .ninf, .fin b => if b < 0 then .inf else .ninf
  | .fin _, .inf => .fin 0
  | .fin _, .ninf => .fin 0
  | .inf, .inf => .nan
  | .inf, .ninf => .nan
  | .ninf, .inf => .nan
  | .ninf, .ninf => .nan

/-- Arithmetic mean of a list of rationals (`np.mean`). -/
def listMean (costs : List ℚ) : ℚ := costs.sum / costs.length

/-- Minimum of a nonempty list, with 0 for the empty list (`np.min`;
the empty case is unreachable because the code guards `len(costs) == 0`). -/
def listMin : List ℚ → ℚ
  | [] => 0
  | x :: xs => xs.foldl min x

/-- Maximum of a nonempty list, with 0 for the empty list (`np.max`). -/
def listMax : List ℚ → ℚ
  | [] => 0
  | x :: xs => xs.foldl max x

/-- The seven cost-derived features of `_extract_resource_features`,
after sanitisation. -/
structure CostFeatures where
  avg_daily_cost : EVal
  total_cost : EVal
  cost_std : EVal
  cost_min : EVal
  cost_max : EVal
  cost_trend : EVal
  cost_volatility : EVal
deriving DecidableEq, Repr

/-- The cost-feature block of `_extract_resource_features`.

`npStd` and `npTrend` stand for the values of `np.std(costs)` and
`np.polyfit(range(len(costs)), costs, 1)[0]`: these involve square roots /
least-squares solves that are not rational, so they are taken as
*arbitrary* extended values (any float the library could return, including
NaN and ±Infinity).  Everything else follows the source line by line:
statistics are computed only when the guards of the code allow, volatility
is `std/mean` guarded by `avg_cost > 0`, and every field passes through
`sanitize`. -/
def extract_cost_features (costs : List ℚ) (npStd npTrend : EVal) : CostFeatures :=
  if costs.length = 0 then
    ⟨.fin 0, .fin 0, .fin 0, .fin 0, .fin 0, .fin 0, .fin 0⟩
  else
    let avg_cost : ℚ := listMean costs
    let total_cost : ℚ := costs.sum
    let cost_std : EVal := if 1 < costs.length then npStd else .fin 0
    let cost_min : ℚ := listMin costs
    let cost_max : ℚ := listMax costs
    let cost_trend : EVal := if 1 < costs.length then npTrend else .fin 0
    let cost_volatility : EVal := if 0 < avg_cost then cost_std.div (.fin avg_cost) else .fin 0
    { avg_daily_cost := sanitize (.fin avg_cost)
      total_cost := sanitize (.fin total_cost)
      cost_std := sanitize cost_std
      cost_min := sanitize (.fin cost_min)
      cost_max := sanitize (.fin cost_max)
      cost_trend := sanitize cost_trend
      cost_volatility := sanitize cost_volatility }

/-- Python's `pat in s` substring test. -/
def strContains (s pat : String) : Bool := decide (pat.toList <:+: s.toList)

/-- Python's `str.lower()` (character-wise ASCII lowering). -/
def strLower (s : String) : String := String.mk (s.data.map Char.toLower)

/-- A cloud resource as the dictionaries handed to the recommender /
risk assessor.  Python reads optional keys with `.get(key, default)`;
here the fields are always present, quantifying over every value the
dictionaries could carry (the defaults are particular instances). -/
structure Resource where
  id : String
  resource_type : String
  name : String
  provider : String
  tags : List (String × String)
  instance_type : String
  monthly_cost : ℚ
  cost_per_gb : ℚ
deriving DecidableEq, Repr

/-- A cost entry restricted to the fields the recommender reads
(`resource_id`, `cost`); date/currency/usage fields are carried along in
the source but never read by the claims' code paths. -/
structure CostEntry where
  resource_id : String
  cost : ℚ
deriving DecidableEq, Repr

/-- The usage-pattern dictionary as read by the recommender's heuristics
via `.get(key, 0)`. -/
structure UsagePatterns where
  avg_cpu_utilization : ℚ
  avg_memory_utilization : ℚ
  peak_cpu_utilization : ℚ
  avg_network_utilization : ℚ
  last_activity_days : ℚ
  storage_used_gb : ℚ
  storage_allocated_gb : ℚ
deriving DecidableEq, Repr

/-- `usage_patterns.get(str(resource_id), {})`: a missing entry behaves as
an empty dictionary, whose every `.get(key, 0)` read yields 0. -/
def emptyUsagePatterns : UsagePatterns := ⟨0, 0, 0, 0, 0, 0, 0⟩

/-- A recommendation dictionary, restricted to the fields the pipeline
reads downstream.  `id`, `description`, `created_at` and the per-heuristic
extras (`current_instance`, cost breakdowns, `risk_factors`,
`estimated_effort_hours`) are presentation-only strings/copies in the
source and are omitted.  `priority_rank`/`priority_level` and the
enrichment fields start absent (`none`) and are filled in later, as in the
source where the keys are added after generation. -/
structure Recommendation where
  resource_id : String
  type : String
  title : String
  potential_savings : ℚ
  confidence_score : ℚ
  implementation_complexity : String
  requires_downtime : Bool
  rollback_complexity : String
  priority_rank : Option ℕ
  priority_level : Option String
  resource_name : Option String
  resource_type_tag : Option String
  provider_tag : Option String
deriving DecidableEq, Repr

/-- `_get_smaller_instance`. -/
def get_smaller_instance (current_instance : String) : String :=
  (([("t3.medium", "t3.small"), ("t3.large", "t3.medium"),
     ("m5.large", "m5.medium"), ("m5.xlarge", "m5.large"),
     ("c5.large", "c5.medium"), ("r5.large", "r5.medium")] :
    List (String × String)).lookup current_instance).getD current_instance

/-- `_get_larger_instance`. -/
def get_larger_instance (current_instance : String) : String :=
  (([("t3.small", "t3.medium"), ("t3.medium", "t3.large"),
     ("m5.medium", "m5.large"), ("m5.large", "m5.xlarge"),
     ("c5.medium", "c5.large"), ("r5.medium", "r5.large")] :
    List (String × String)).lookup current_instance).getD current_instance

/-- `_calculate_instance_savings`: simplified cost table, default 50,
clamped below at 0. -/
def calculate_instance_savings (current recommended : String) : ℚ :=
  let instance_costs : List (String × ℚ) :=
    [("t3.small", 10), ("t3.medium", 20), ("t3.large", 40),
     ("m5.medium", 30), ("m5.large", 60), ("m5.xlarge", 120),
     ("c5.medium", 40), ("c5.large", 80),
     ("r5.medium", 50), ("r5.large", 100)]
  let current_cost := (instance_costs.lookup current).getD 50
  let recommended_cost := (instance_costs.lookup recommended).getD 50
  max 0 (current_cost - recommended_cost)

/-- `_analyze_rightsizing`.  The trailing `finish` step is the source's
final `if recommended_instance != current_instance and savings_potential
> 10: return {...}` / fall-through `return None`; the `[40, 70]` branch
returns `None` before reaching it. -/
def analyze_rightsizing (resource : Resource) (usage_patterns : UsagePatterns) :
    Option Recommendation :=
  let current_instance := resource.instance_type
  let finish : String → ℚ → Option Recommendation := fun recommended_instance savings_potential =>
    if recommended_instance ≠ current_instance ∧ 10 < savings_potential then
      some { resource_id := resource.id, type := "rightsizing",
             title := "Rightsize Instance",
             potential_savings := savings_potential, confidence_score := 0.8,
             implementation_complexity := "medium", requires_downtime := true,
             rollback_complexity := "low", priority_rank := none,
             priority_level := none, resource_name := none,
             resource_type_tag := none, provider_tag := none }
    else none
  if usage_patterns.avg_cpu_utilization < 20 ∧ usage_patterns.peak_cpu_utilization < 40 then
    finish (get_smaller_instance current_instance)
      (calculate_instance_savings current_instance (get_smaller_instance current_instance))
  else if 80 < usage_patterns.avg_cpu_utilization ∧ 90 < usage_patterns.peak_cpu_utilization then
    finish (get_larger_instance current_instance) 0
  else if 40 ≤ usage_patterns.avg_cpu_utilization ∧ usage_patterns.avg_cpu_utilization ≤ 70 then
    none
  else
    finish current_instance 0

/-- `_analyze_reserved_instance`. -/
def analyze_reserved_instance (resource : Resource) (cost_data : List CostEntry) :
    Option Recommendation :=
  let resource_costs := cost_data.filter (fun c => c.resource_id == resource.id)
  if resource_costs.length < 30 then none
  else
    let total_cost := (resource_costs.map (fun c => c.cost)).sum
    let avg_daily_cost := total_cost / resource_costs.length
    let discount_rate : ℚ := 0.4
    let monthly_savings := avg_daily_cost * 30 * discount_rate
    if 50 < monthly_savings then
      some { resource_id := resource.id, type := "reserved_instance",
             title := "Purchase Reserved Instance",
             potential_savings := monthly_savings, confidence_score := 0.9,
             implementation_complexity := "low", requires_downtime := false,
             rollback_complexity := "high", priority_rank := none,
             priority_level := none, resource_name := none,
             resource_type_tag := none, provider_tag := none }
    else none

/-- `_analyze_spot_instance`. -/
def analyze_spot_instance (resource : Resource) (usage_patterns : UsagePatterns) :
    Option Recommendation :=
  if 70 < usage_patterns.avg_cpu_utilization then none
  else
    let spot_discount : ℚ := 0.7
    let monthly_savings := resource.monthly_cost * spot_discount
    if 20 < monthly_savings then
      some { resource_id := resource.id, type := "spot_instance",
             title := "Use Spot Instances",
             potential_savings := monthly_savings, confidence_score := 0.6,
             implementation_complexity := "medium", requires_downtime := true,
             rollback_complexity := "medium", priority_rank := none,
             priority_level := none, resource_name := none,
             resource_type_tag := none, provider_tag := none }
    else none

/-- `_analyze_storage_optimization`. -/
def analyze_storage_optimization (resource : Resource) (usage_patterns : UsagePatterns) :
    Option Recommendation :=
  if ¬ strContains (strLower resource.resource_type) "storage" then none
  else if usage_patterns.storage_allocated_gb = 0 then none
  else
    let utilization_rate := usage_patterns.storage_used_gb / usage_patterns.storage_allocated_gb
    if utilization_rate < 0.3 then
      let overprovisioned_gb := usage_patterns.storage_allocated_gb - usage_patterns.storage_used_gb
      let monthly_savings := overprovisioned_gb * resource.cost_per_gb
      if 10 < monthly_savings then
        some { resource_id := resource.id, type := "storage_optimization",
               title := "Optimize Storage Allocation",
               potential_savings := monthly_savings, confidence_score := 0.85,
               implementation_complexity := "low", requires_downtime := false,
               rollback_complexity := "low", priority_rank := none,
               priority_level := none, resource_name := none,
               resource_type_tag := none, provider_tag := none }
      else none
    else none

/-- `_analyze_unused_resource`. -/
def analyze_unused_resource (resource : Resource) (usage_patterns : UsagePatterns) :
    Option Recommendation :=
  let is_unused :=
    usage_patterns.avg_cpu_utilization < 5 ∧
    usage_patterns.avg_network_utilization < 10 ∧
    7 < usage_patterns.last_activity_days
  if is_unused then
    some { resource_id := resource.id, type := "unused_resource",
           title := "Terminate Unused Resource",
           potential_savings := resource.monthly_cost, confidence_score := 0.7,
           implementation_complexity := "low", requires_downtime := true,
           rollback_complexity := "medium", priority_rank := none,
           priority_level := none, resource_name := none,
           resource_type_tag := none, provider_tag := none }
  else none

/-- `_analyze_resource`: the five heuristics in source order, each
contributing zero or one recommendation; the resource's usage patterns are
looked up by id with an empty-dictionary default. -/
def analyze_resource (resource : Resource)
    (usage_patterns : List (String × UsagePatterns)) (cost_data : List CostEntry) :
    List Recommendation :=
  let resource_usage := (usage_patterns.lookup resource.id).getD emptyUsagePatterns
  (analyze_rightsizing resource resource_usage).toList ++
  (analyze_reserved_instance resource cost_data).toList ++
  (analyze_spot_instance resource resource_usage).toList ++
  (analyze_storage_optimization resource resource_usage).toList ++
  (analyze_unused_resource resource resource_usage).toList

/-- `_calculate_priority_level`. -/
def calculate_priority_level (recommendation : Recommendation) : String :=
  let priority_score := recommendation.potential_savings * recommendation.confidence_score
  let priority_score :=
    if recommendation.implementation_complexity = "low" then priority_score * 1.2
    else if recommendation.implementation_complexity = "high" then priority_score * 0.8
    else priority_score
  if 500 < priority_score then "critical"
  else if 200 < priority_score then "high"
  else if 50 < priority_score then "medium"
  else "low"

/-- The ordering used by `recommendations.sort(key=lambda x:
x.get('potential_savings', 0), reverse=True)`: descending by potential
savings.  Python's sort is stable; so is `List.insertionSort` with this
(total, transitive) relation. -/
def savingsOrder (a b : Recommendation) : Prop :=
  b.potential_savings ≤ a.potential_savings

instance : DecidableRel savingsOrder :=
  fun a b => inferInstanceAs (Decidable (b.potential_savings ≤ a.potential_savings))

instance : IsTotal Recommendation savingsOrder :=
  ⟨fun a b => le_total b.potential_savings a.potential_savings⟩

instance : IsTrans Recommendation savingsOrder :=
  ⟨fun _ _ _ hab hbc => le_trans hbc hab⟩

/-- The rank-assignment loop `for i, rec in enumerate(recommendations):
rec['priority_rank'] = i + 1; rec['priority_level'] = ...`, started at 1. -/
def assign_ranks : ℕ → List Recommendation → List Recommendation
  | _, [] => []
  | n, r :: rs =>
    { r with priority_rank := some n,
             priority_level := some (calculate_priority_level r) } :: assign_ranks (n + 1) rs

/-- `OptimizationRecommender.generate_recommendations`: analyze every
resource, sort the combined list descending by potential savings, then
assign priority ranks and levels. -/
def generate_recommendations (resources : List Resource)
    (usage_patterns : List (String × UsagePatterns)) (cost_data : List CostEntry) :
    List Recommendation :=
  let recommendations :=
    resources.flatMap (fun resource => analyze_resource resource usage_patterns cost_data)
  assign_ranks 1 (List.insertionSort savingsOrder recommendations)

/-- A sample resource used by concrete witnesses. -/
def sampleResource : Resource :=
  { id := "r1", resource_type := "vm", name := "web-1", provider := "aws",
    tags := [], instance_type := "", monthly_cost := 0, cost_per_gb := 0.1 }

/-- 30 concrete cost records of 5 currency units each for resource "r1". -/
def sampleReservedCosts : List CostEntry :=
  List.replicate 30 { resource_id := "r1", cost := 5 }

/-- The recommendation the reserved-capacity heuristic emits on
`sampleReservedCosts`: average daily cost 5, savings 5 * 30 * 0.4 = 60. -/
def sampleReservedRec : Recommendation :=
  { resource_id := "r1", type := "reserved_instance",
    title := "Purchase Reserved Instance", potential_savings := 60,
    confidence_score := 0.9, implementation_complexity := "low",
    requires_downtime := false, rollback_complexity := "high",
    priority_rank := none, priority_level := none, resource_name := none,
    resource_type_tag := none, provider_tag := none }

/-- `MLPipelineConfig`. -/
structure MLPipelineConfig where
  analysis_window_days : ℕ
  min_data_points : ℕ
  confidence_threshold : ℚ
  max_recommendations_per_resource : ℕ
  enable_anomaly_detection : Bool
  enable_risk_assessment : Bool
  enable_performance_prediction : Bool
deriving DecidableEq, Repr

/-- The default `MLPipelineConfig` values. -/
def defaultConfig : MLPipelineConfig :=
  { analysis_window_days := 30, min_data_points := 7,
    confidence_threshold := 0.6, max_recommendations_per_resource := 3,
    enable_anomaly_detection := true, enable_risk_assessment := true,
    enable_performance_prediction := true }

/-- One entry of `pattern_data["pattern_analysis"]` as consumed by
`_run_recommendation_generation`: the resource and the usage-pattern
values the recommender will read (the inefficiency list and analysis
confidence are attached as metadata but never read on the claims' code
paths). -/
structure PatternAnalysisEntry where
  resource : Resource
  usage_patterns : UsagePatterns
deriving DecidableEq, Repr

/-- The metadata enrichment applied to each recommendation that passes the
stage's confidence filter (`rec["resource_name"] = ...` etc.). -/
def enrich (resource : Resource) (r : Recommendation) : Recommendation :=
  { r with resource_name := some resource.name,
           resource_type_tag := some resource.resource_type,
           provider_tag := some resource.provider }

/-- The loop body of `_run_recommendation_generation` for one analyzed
resource: fetch the resource's cost entries, run the recommender on that
single resource, keep (and enrich) the recommendations whose confidence
reaches the threshold, and truncate to
`max_recommendations_per_resource`. -/
def stage_recommendations_for (cfg : MLPipelineConfig) (cost_entries : List CostEntry)
    (analysis : PatternAnalysisEntry) : List Recommendation :=
  let resource_costs := cost_entries.filter
    (fun c => c.resource_id == analysis.resource.id)
  let recommendations := generate_recommendations [analysis.resource]
    [(analysis.resource.id, analysis.usage_patterns)] resource_costs
  let filtered_recommendations :=
    (recommendations.filter
      (fun r => cfg.confidence_threshold ≤ r.confidence_score)).map
      (enrich analysis.resource)
  filtered_recommendations.take cfg.max_recommendations_per_resource

/-- `_run_recommendation_generation`: the per-resource lists, concatenated
in analysis order. -/
def run_recommendation_generation (cfg : MLPipelineConfig)
    (pattern_analysis : List PatternAnalysisEntry) (cost_entries : List CostEntry) :
    List Recommendation :=
  pattern_analysis.flatMap (stage_recommendations_for cfg cost_entries)

/-- `_validate_recommendation`: `is_valid` starts true and is cleared by
the minimum-savings check (`savings < 10`) and by the confidence check
(`confidence < threshold`). -/
def validate_recommendation (cfg : MLPipelineConfig) (recommendation : Recommendation) :
    Bool :=
  let is_valid := true
  let is_valid := if recommendation.potential_savings < 10 then false else is_valid
  let is_valid :=
    if recommendation.confidence_score < cfg.confidence_threshold then false else is_valid
  is_valid

/-- The final sort key of `_run_validation_and_finalization`:
ascending `priority_rank` (default 999), ties broken by descending
potential savings.  As with `savingsOrder`, stable insertion with this
total preorder matches Python's stable `list.sort`. -/
def finalOrder (a b : Recommendation) : Prop :=
  a.priority_rank.getD 999 < b.priority_rank.getD 999 ∨
  (a.priority_rank.getD 999 = b.priority_rank.getD 999 ∧
   b.potential_savings ≤ a.potential_savings)

instance : DecidableRel finalOrder := fun a b => by
  unfold finalOrder; infer_instance

instance : IsTotal Recommendation finalOrder := by
  constructor
  intro a b
  rcases lt_trichotomy (a.priority_rank.getD 999) (b.priority_rank.getD 999) with h | h | h
  · exact Or.inl (Or.inl h)
  · rcases le_total b.potential_savings a.potential_savings with hs | hs
    · exact Or.inl (Or.inr ⟨h, hs⟩)
    · exact Or.inr (Or.inr ⟨h.symm, hs⟩)
  · exact Or.inr (Or.inl h)

instance : IsTrans Recommendation finalOrder := by
  constructor
  rintro a b c (hab | ⟨hab, hab'⟩) (hbc | ⟨hbc, hbc'⟩)
  · exact Or.inl (lt_trans hab hbc)
  · exact Or.inl (hbc ▸ hab)
  · exact Or.inl (hab ▸ hbc)
  · exact Or.inr ⟨hab.trans hbc, le_trans hbc' hab'⟩

/-- `_run_validation_and_finalization`: keep the recommendations that pass
`_validate_recommendation`, then sort by (priority rank ascending, savings
descending).  The `final_rank` added afterwards is the 1-based position in
this list. -/
def run_validation_and_finalization (cfg : MLPipelineConfig)
    (recommendations : List Recommendation) : List Recommendation :=
  List.insertionSort finalOrder
    (recommendations.filter (validate_recommendation cfg))

/-- The ranked form of `sampleReservedRec` after
`generate_recommendations` (rank 1; priority score 60 * 0.9 * 1.2 = 64.8,
hence level "medium"). -/
def sampleRankedRec : Recommendation :=
  { sampleReservedRec with priority_rank := some 1, priority_level := some "medium" }

/-- `sampleRankedRec` after the stage's metadata enrichment. -/
def sampleEnrichedRec : Recommendation :=
  { sampleRankedRec with
      resource_name := some "web-1",
      resource_type_tag := some "vm",
      provider_tag := some "aws" }

/-- One analyzed-resource entry for the sample resource. -/
def sampleAnalysis : PatternAnalysisEntry :=
  { resource := sampleResource, usage_patterns := emptyUsagePatterns }

/-- A second sample resource, with higher daily costs than
`sampleResource`. -/
def resourceB : Resource :=
  { id := "r2", resource_type := "vm", name := "api-1", provider := "aws",
    tags := [], instance_type := "", monthly_cost := 0, cost_per_gb := 0.1 }

/-- 30 cost records of 10 currency units each for resource "r2". -/
def reservedCostsB : List CostEntry :=
  List.replicate 30 { resource_id := "r2", cost := 10 }

/-- The reserved-capacity recommendation for `resourceB`:
savings 10 * 30 * 0.4 = 120. -/
def reservedRecB : Recommendation :=
  { resource_id := "r2", type := "reserved_instance",
    title := "Purchase Reserved Instance", potential_savings := 120,
    confidence_score := 0.9, implementation_complexity := "low",
    requires_downtime := false, rollback_complexity := "high",
    priority_rank := none, priority_level := none, resource_name := none,
    resource_type_tag := none, provider_tag := none }

/-- `reservedRecB` after ranking (score 120 * 0.9 * 1.2 = 129.6, level
"medium") and stage enrichment. -/
def enrichedRecB : Recommendation :=
  { reservedRecB with
      priority_rank := some 1,
      priority_level := some "medium",
      resource_name := some "api-1",
      resource_type_tag := some "vm",
      provider_tag := some "aws" }

/-- The analyzed-resource entry for `resourceB`. -/
def analysisB : PatternAnalysisEntry :=
  { resource := resourceB, usage_patterns := emptyUsagePatterns }

/-- `PipelineStage`. -/
inductive PipelineStage where
  | data_ingestion
  | feature_engineering
  | pattern_analysis
  | risk_assessment
  | recommendation_generation
  | performance_estimation
  | validation
deriving DecidableEq, Repr

/-- A `PipelineResult` restricted to what the control flow and the
error/success reports read: the stage and its success flag (payloads,
durations and timestamps are carried but not branched on). -/
structure StageResult where
  stage : PipelineStage
  success : Bool
deriving DecidableEq, Repr

/-- The success flag each `_run_*` stage coroutine returns for one run.
Each stage function catches its own exceptions and reports
`success=False`, so the orchestrator's branching is a function of these
seven flags and the two enable flags of the configuration. -/
structure StageOutcomes where
  data_ingestion : Bool
  feature_engineering : Bool
  pattern_analysis : Bool
  risk_assessment : Bool
  recommendation_generation : Bool
  performance_estimation : Bool
  validation : Bool
deriving DecidableEq, Repr

/-- The part of `run_pipeline`'s return value the claim is about: the
`status` field and the `pipeline_results` list of per-stage records. -/
structure PipelineReport where
  status : String
  pipeline_results : List StageResult
deriving DecidableEq, Repr

/-- `run_pipeline`: stages run in order, each appending its
`PipelineResult` to `self.pipeline_results`; a failure of ingestion,
feature engineering, pattern analysis or recommendation generation
returns `_create_error_response` (status "error") with the results
accumulated so far; risk assessment and performance estimation run only
when enabled and their failure is logged but not fatal; the validation
result is appended and the run returns status "success". -/
def run_pipeline (cfg : MLPipelineConfig) (o : StageOutcomes) : PipelineReport :=
  let results := [({ stage := .data_ingestion, success := o.data_ingestion } : StageResult)]
  if ¬ o.data_ingestion then { status := "error", pipeline_results := results }
  else
    let results := results ++ [({ stage := .feature_engineering,
                                  success := o.feature_engineering } : StageResult)]
    if ¬ o.feature_engineering then { status := "error", pipeline_results := results }
    else
      let results := results ++ [({ stage := .pattern_analysis,
                                    success := o.pattern_analysis } : StageResult)]
      if ¬ o.pattern_analysis then { status := "error", pipeline_results := results }
      else
        let results := if cfg.enable_risk_assessment then
            results ++ [({ stage := .risk_assessment,
                           success := o.risk_assessment } : StageResult)]
          else results
        let results := results ++ [({ stage := .recommendation_generation,
                                      success := o.recommendation_generation } : StageResult)]
        if ¬ o.recommendation_generation then
          { status := "error", pipeline_results := results }
        else
          let results := if cfg.enable_performance_prediction then
              results ++ [({ stage := .performance_estimation,
                             success := o.performance_estimation } : StageResult)]
            else results
          let results := results ++ [({ stage := .validation,
                                        success := o.validation } : StageResult)]
          { status := "success", pipeline_results := results }

/-- The candidate-action descriptor passed to `assess_risk`, restricted to
the fields the assessor reads (`type`, `requires_data_migration`;
`implementation_complexity`/`requires_downtime` are carried but unread). -/
structure Optimization where
  type : String
  requires_data_migration : Bool
deriving DecidableEq, Repr

/-- `RiskAssessor.critical_resource_types`. -/
def critical_resource_types : List String :=
  ["database", "load_balancer", "api_gateway", "cache", "message_queue",
   "storage_gateway"]

/-- `RiskAssessor.high_impact_tags`. -/
def high_impact_tags : List String :=
  ["production", "critical", "revenue-generating", "customer-facing",
   "compliance-required"]

/-- `_assess_resource_criticality` (score only; the factor strings are
presentation).  The tag loop `break`s after its first match, so it
contributes 0.3 exactly when some tag matches. -/
def assess_resource_criticality (resource : Resource) : ℚ :=
  let resource_type := strLower resource.resource_type
  let name := strLower resource.name
  let score : ℚ := 0
  let score := if critical_resource_types.any
      (fun critical_type => strContains resource_type critical_type) then score + 0.4 else score
  let critical_indicators := ["prod", "production", "critical", "main", "primary"]
  let score := if critical_indicators.any
      (fun indicator => strContains name indicator) then score + 0.3 else score
  let score := if resource.tags.any (fun t =>
      (["environment", "tier", "importance"].contains (strLower t.1)) &&
      (["production", "prod", "critical", "high"].contains (strLower t.2)))
    then score + 0.3 else score
  min score 1

/-- `_assess_business_impact` (score only).  Each tag is tested by two
independent conditions inside the first loop (no `break`), and by the
compliance condition in the second loop (no `break`), so the loops are
sums over the tag list. -/
def assess_business_impact (resource : Resource) : ℚ :=
  let name := strLower resource.name
  let score : ℚ := 0
  let score := score + (resource.tags.map (fun t =>
      (if (["business-unit", "department", "owner"].contains (strLower t.1)) &&
          (["finance", "sales", "customer-service", "operations"].contains (strLower t.2))
        then (0.3 : ℚ) else 0) +
      (if high_impact_tags.contains (strLower t.2) then (0.4 : ℚ) else 0))).sum
  let business_indicators := ["web", "api", "app", "service", "customer"]
  let score := if business_indicators.any
      (fun indicator => strContains name indicator) then score + 0.2 else score
  let compliance_tags := ["pci", "hipaa", "gdpr", "sox", "compliance"]
  let score := score + (resource.tags.map (fun t =>
      if compliance_tags.any (fun compliance => strContains (strLower t.2) compliance)
        then (0.3 : ℚ) else 0)).sum
  min score 1

/-- `_assess_rollback_complexity` (score only): base score by action-type
substring (first match in the if/elif chain wins), plus 0.3 for a declared
data-migration requirement; capped at 1. -/
def assess_rollback_complexity (optimization : Optimization) : ℚ :=
  let optimization_type := strLower optimization.type
  let score : ℚ :=
    if strContains optimization_type "rightsizing" then 0.2
    else if strContains optimization_type "instance" ||
        strContains optimization_type "resize" then 0.4
    else if strContains optimization_type "reserved" then 0.7
    else if strContains optimization_type "spot" then 0.6
    else if strContains optimization_type "storage" then 0.5
    else 0.4
  let score := if optimization.requires_data_migration then score + 0.3 else score
  min score 1

/-- `_assess_data_sensitivity` (score only).  The sensitive-tag loop
`break`s after its first match. -/
def assess_data_sensitivity (resource : Resource) : ℚ :=
  let resource_type := strLower resource.resource_type
  let sensitive_tags := ["pii", "phi", "sensitive", "confidential", "encrypted"]
  let score : ℚ := 0
  let score := if resource.tags.any (fun t =>
      sensitive_tags.any (fun sensitive => strContains (strLower t.2) sensitive))
    then score + 0.6 else score
  let score := if strContains resource_type "database" || strContains resource_type "db"
    then score + 0.4 else score
  let score := if strContains resource_type "storage" || strContains resource_type "backup"
    then score + 0.3 else score
  min score 1

/-- `_assess_uptime_requirements` (score only).  The SLA loop has no
`break`: every SLA-keyed tag contributes, so it is a sum over the tags. -/
def assess_uptime_requirements (resource : Resource) : ℚ :=
  let name := strLower resource.name
  let score : ℚ := 0
  let score := score + (resource.tags.map (fun t =>
      if strContains (strLower t.1) "sla" then
        (if strContains (strLower t.2) "99.9" || strContains (strLower t.2) "high"
          then (0.5 : ℚ)
          else if strContains (strLower t.2) "99" then 0.3 else 0)
      else 0)).sum
  let score := if strContains name "multi-az" || strContains name "ha" ||
      strContains name "high-availability" then score + 0.4 else score
  let score := if strContains name "prod" || strContains name "production"
    then score + 0.3 else score
  min score 1

/-- The weighted aggregate risk score of `assess_risk`, with the fixed
weights of `RiskAssessor.__init__`: criticality 0.3, business impact 0.3,
rollback complexity 0.2, data sensitivity 0.1, uptime 0.1. -/
def assess_risk_score (resource : Resource) (optimization : Optimization) : ℚ :=
  assess_resource_criticality resource * 0.3 +
  assess_business_impact resource * 0.3 +
  assess_rollback_complexity optimization * 0.2 +
  assess_data_sensitivity resource * 0.1 +
  assess_uptime_requirements resource * 0.1

/-- `_calculate_risk_level`. -/
def calculate_risk_level (risk_score : ℚ) : String :=
  if 0.8 ≤ risk_score then "critical"
  else if 0.6 ≤ risk_score then "high"
  else if 0.4 ≤ risk_score then "medium"
  else "low"

/-- A concrete optimization descriptor for the C5 witness. -/
def sampleOptimization : Optimization :=
  { type := "reserved_instance", requires_data_migration := false }

/-- A concrete tagged resource for the C5 witness. -/
def riskResource : Resource :=
  { id := "r3", resource_type := "database", name := "prod-db",
    provider := "aws", tags := [("environment", "prod"), ("sla", "99.9")],
    instance_type := "", monthly_cost := 0, cost_per_gb := 0.1 }

/-! ## Theorems -/

theorem sanitize_isFinite (v : EVal) : (sanitize v).isFinite = true := by
  cases v <;> rfl

/-- C4: for at least 2 cost records, every cost-derived feature of
`_extract_resource_features` is finite (NaN/Infinity are coerced to 0.0 by
the sanitisation wrappers), and the volatility feature is 0 whenever the
mean cost is not strictly positive, for arbitrary (even non-finite) values
of the `np.std` / `np.polyfit` intermediates. -/
theorem extract_cost_features_sanitized
    (costs : List ℚ) (npStd npTrend : EVal) (hlen : 2 ≤ costs.length) :
    let f := extract_cost_features costs npStd npTrend
    f.avg_daily_cost.isFinite = true ∧
    f.total_cost.isFinite = true ∧
    f.cost_std.isFinite = true ∧
    f.cost_min.isFinite = true ∧
    f.cost_max.isFinite = true ∧
    f.cost_trend.isFinite = true ∧
    f.cost_volatility.isFinite = true ∧
    (listMean costs ≤ 0 → f.cost_volatility = .fin 0) := by
  intro f
  have hne : ¬ costs.length = 0 := by omega
  refine ⟨?_, ?_, ?_, ?_, ?_, ?_, ?_, ?_⟩ <;>
    simp only [f, extract_cost_features, if_neg hne]
  · exact sanitize_isFinite _
  · exact sanitize_isFinite _
  · exact sanitize_isFinite _
  · exact sanitize_isFinite _
  · exact sanitize_isFinite _
  · exact sanitize_isFinite _
  · exact sanitize_isFinite _
  · intro hmean
    have : ¬ 0 < listMean costs := not_lt.mpr hmean
    simp [this, sanitize]

/-- Witness for C4 at a concrete input: two cost records `[1, 2]` with the
`np.std` intermediate forced to NaN and the trend to Infinity. -/
theorem extract_cost_features_sanitized_witness :
    (2 ≤ ([1, 2] : List ℚ).length) ∧
    ((extract_cost_features [1, 2] .nan .inf).cost_volatility.isFinite = true) :=
  ⟨by decide, (extract_cost_features_sanitized [1, 2] .nan .inf (by decide)).2.2.2.2.2.2.1⟩

theorem analyze_rightsizing_some (resource : Resource) (u : UsagePatterns)
    (r : Recommendation) (h : analyze_rightsizing resource u = some r) :
    0 ≤ r.potential_savings ∧ r.confidence_score = 0.8 ∧ r.resource_id = resource.id := by
  unfold analyze_rightsizing at h
  split at h
  · simp only [] at h
    split at h
    · rename_i hg
      cases h
      exact ⟨le_of_lt (lt_trans (by norm_num) hg.2), rfl, rfl⟩
    · exact absurd h (by simp)
  · split at h
    · simp only [] at h
      split at h
      · rename_i hg
        exact absurd hg.2 (by norm_num)
      · exact absurd h (by simp)
    · split at h
      · exact absurd h (by simp)
      · simp only [] at h
        split at h
        · rename_i hg
          exact absurd hg.2 (by norm_num)
        · exact absurd h (by simp)

theorem analyze_reserved_instance_some (resource : Resource) (cost_data : List CostEntry)
    (r : Recommendation) (h : analyze_reserved_instance resource cost_data = some r) :
    50 < r.potential_savings ∧ r.confidence_score = 0.9 ∧ r.resource_id = resource.id := by
  simp only [analyze_reserved_instance] at h
  split at h
  · exact absurd h (by simp)
  · split at h
    · rename_i hg
      cases h
      exact ⟨hg, rfl, rfl⟩
    · exact absurd h (by simp)

theorem analyze_spot_instance_some (resource : Resource) (u : UsagePatterns)
    (r : Recommendation) (h : analyze_spot_instance resource u = some r) :
    20 < r.potential_savings ∧ r.confidence_score = 0.6 ∧ r.resource_id = resource.id := by
  simp only [analyze_spot_instance] at h
  split at h
  · exact absurd h (by simp)
  · split at h
    · rename_i hg
      cases h
      exact ⟨hg, rfl, rfl⟩
    · exact absurd h (by simp)

theorem analyze_storage_optimization_some (resource : Resource) (u : UsagePatterns)
    (r : Recommendation) (h : analyze_storage_optimization resource u = some r) :
    10 < r.potential_savings ∧ r.confidence_score = 0.85 ∧ r.resource_id = resource.id := by
  simp only [analyze_storage_optimization] at h
  split at h
  · exact absurd h (by simp)
  · split at h
    · exact absurd h (by simp)
    · split at h
      · split at h
        · rename_i hg
          cases h
          exact ⟨hg, rfl, rfl⟩
        · exact absurd h (by simp)
      · exact absurd h (by simp)

theorem analyze_unused_resource_some (resource : Resource) (u : UsagePatterns)
    (r : Recommendation) (h : analyze_unused_resource resource u = some r) :
    r.potential_savings = resource.monthly_cost ∧ r.confidence_score = 0.7 ∧
    r.resource_id = resource.id := by
  simp only [analyze_unused_resource] at h
  split at h
  · cases h
    exact ⟨rfl, rfl, rfl⟩
  · exact absurd h (by simp)

/-- Elements of `assign_ranks` are the input elements with only their
`priority_rank`/`priority_level` fields overwritten. -/
theorem mem_assign_ranks {r : Recommendation} :
    ∀ {n : ℕ} {l : List Recommendation}, r ∈ assign_ranks n l →
      ∃ r' ∈ l, r.potential_savings = r'.potential_savings ∧
        r.confidence_score = r'.confidence_score ∧
        r.resource_id = r'.resource_id := by
  intro n l
  induction l generalizing n with
  | nil => intro h; cases h
  | cons x xs ih =>
    intro h
    simp only [assign_ranks, List.mem_cons] at h
    rcases h with rfl | h
    · exact ⟨x, List.mem_cons_self x xs, rfl, rfl, rfl⟩
    · obtain ⟨r', hr', hs⟩ := ih h
      exact ⟨r', List.mem_cons_of_mem x hr', hs⟩

/-- Every element of `_analyze_resource`'s output comes from one of the
five heuristics. -/
theorem mem_analyze_resource {r : Recommendation} {resource : Resource}
    {usage_patterns : List (String × UsagePatterns)} {cost_data : List CostEntry}
    (h : r ∈ analyze_resource resource usage_patterns cost_data) :
    let u := (usage_patterns.lookup resource.id).getD emptyUsagePatterns
    analyze_rightsizing resource u = some r ∨
    analyze_reserved_instance resource cost_data = some r ∨
    analyze_spot_instance resource u = some r ∨
    analyze_storage_optimization resource u = some r ∨
    analyze_unused_resource resource u = some r := by
  intro u
  simp only [analyze_resource, List.mem_append, Option.mem_toList, Option.mem_def] at h
  tauto

/-- C8: every recommendation produced by the recommendation engine has
nonnegative potential savings and a confidence score in [0, 1], for
nonnegative cost inputs (monthly cost and cost records). -/
theorem generate_recommendations_bounds (resources : List Resource)
    (usage_patterns : List (String × UsagePatterns)) (cost_data : List CostEntry)
    (hmc : ∀ res ∈ resources, 0 ≤ res.monthly_cost) :
    ∀ r ∈ generate_recommendations resources usage_patterns cost_data,
      0 ≤ r.potential_savings ∧ 0 ≤ r.confidence_score ∧ r.confidence_score ≤ 1 := by
  intro r hr
  unfold generate_recommendations at hr
  obtain ⟨r', hr', hsav, hconf, _⟩ := mem_assign_ranks hr
  rw [(List.perm_insertionSort savingsOrder _).mem_iff] at hr'
  rw [List.mem_flatMap] at hr'
  obtain ⟨res, hres, hmem⟩ := hr'
  rw [hsav, hconf]
  rcases mem_analyze_resource hmem with h | h | h | h | h
  · obtain ⟨h1, h2, -⟩ := analyze_rightsizing_some _ _ _ h
    exact ⟨h1, by rw [h2]; norm_num, by rw [h2]; norm_num⟩
  · obtain ⟨h1, h2, -⟩ := analyze_reserved_instance_some _ _ _ h
    exact ⟨le_of_lt (lt_trans (by norm_num) h1), by rw [h2]; norm_num, by rw [h2]; norm_num⟩
  · obtain ⟨h1, h2, -⟩ := analyze_spot_instance_some _ _ _ h
    exact ⟨le_of_lt (lt_trans (by norm_num) h1), by rw [h2]; norm_num, by rw [h2]; norm_num⟩
  · obtain ⟨h1, h2, -⟩ := analyze_storage_optimization_some _ _ _ h
    exact ⟨le_of_lt (lt_trans (by norm_num) h1), by rw [h2]; norm_num, by rw [h2]; norm_num⟩
  · obtain ⟨h1, h2, -⟩ := analyze_unused_resource_some _ _ _ h
    exact ⟨by rw [h1]; exact hmc res hres, by rw [h2]; norm_num, by rw [h2]; norm_num⟩

/-- C7: for every resource whose average utilization lies in [40, 70], the
rightsizing heuristic emits no recommendation, regardless of peak
utilization. -/
theorem analyze_rightsizing_band_none (resource : Resource) (u : UsagePatterns)
    (h1 : 40 ≤ u.avg_cpu_utilization) (h2 : u.avg_cpu_utilization ≤ 70) :
    analyze_rightsizing resource u = none := by
  have hn1 : ¬ (u.avg_cpu_utilization < 20 ∧ u.peak_cpu_utilization < 40) := by
    rintro ⟨h, -⟩; linarith
  have hn2 : ¬ (80 < u.avg_cpu_utilization ∧ 90 < u.peak_cpu_utilization) := by
    rintro ⟨h, -⟩; linarith
  simp only [analyze_rightsizing, if_neg hn1, if_neg hn2, if_pos (And.intro h1 h2)]

/-- Witness for C7: average utilization 55, peak 95 (the peak would
otherwise qualify for upsizing). -/
theorem analyze_rightsizing_band_none_witness :
    analyze_rightsizing sampleResource
      { avg_cpu_utilization := 55, avg_memory_utilization := 0,
        peak_cpu_utilization := 95, avg_network_utilization := 0,
        last_activity_days := 0, storage_used_gb := 0, storage_allocated_gb := 0 } = none :=
  analyze_rightsizing_band_none _ _ (by norm_num) (by norm_num)

/-- C6: the reserved-capacity heuristic emits a recommendation iff the
resource has at least 30 cost records and `avg_daily_cost * 30 * 0.4`
exceeds 50; the emitted recommendation's potential savings equal that
product and its rollback complexity is "high". -/
theorem analyze_reserved_instance_spec (resource : Resource) (cost_data : List CostEntry) :
    ((analyze_reserved_instance resource cost_data).isSome ↔
      30 ≤ (cost_data.filter (fun c => c.resource_id == resource.id)).length ∧
      50 < ((cost_data.filter (fun c => c.resource_id == resource.id)).map
              (fun c => c.cost)).sum /
            ((cost_data.filter (fun c => c.resource_id == resource.id)).length : ℚ) *
            30 * 0.4) ∧
    ∀ r, analyze_reserved_instance resource cost_data = some r →
      r.potential_savings =
        ((cost_data.filter (fun c => c.resource_id == resource.id)).map
            (fun c => c.cost)).sum /
          ((cost_data.filter (fun c => c.resource_id == resource.id)).length : ℚ) *
          30 * 0.4 ∧
      r.rollback_complexity = "high" := by
  simp only [analyze_reserved_instance]
  by_cases h30 : (cost_data.filter (fun c => c.resource_id == resource.id)).length < 30
  · simp only [if_pos h30, Option.isSome_none]
    constructor
    · constructor
      · intro h; cases h
      · rintro ⟨hge, -⟩
        exact absurd h30 (by omega)
    · intro r hr; cases hr
  · simp only [if_neg h30]
    by_cases h50 : (50 : ℚ) <
        ((cost_data.filter (fun c => c.resource_id == resource.id)).map
          (fun c => c.cost)).sum /
          ((cost_data.filter (fun c => c.resource_id == resource.id)).length : ℚ) * 30 * 0.4
    · simp only [if_pos h50, Option.isSome_some]
      refine ⟨⟨fun _ => ⟨by omega, h50⟩, fun _ => trivial⟩, ?_⟩
      rintro r hr
      cases hr
      exact ⟨rfl, rfl⟩
    · simp only [if_neg h50, Option.isSome_none]
      constructor
      · constructor
        · intro h; cases h
        · rintro ⟨-, hlt⟩
          exact absurd hlt h50
      · intro r hr; cases hr

/-- Witness for C6: 30 cost records of 5 each give average daily cost 5 and
monthly reserved savings 5 * 30 * 0.4 = 60 > 50, so a recommendation is
emitted, with high rollback complexity. -/
theorem analyze_reserved_instance_spec_witness :
    (analyze_reserved_instance sampleResource sampleReservedCosts).isSome = true ∧
    sampleReservedRec.rollback_complexity = "high" :=
  have h := analyze_reserved_instance_spec sampleResource sampleReservedCosts
  ⟨h.1.mpr ⟨by simp [sampleReservedCosts, sampleResource],
            by simp [sampleReservedCosts, sampleResource, List.sum_replicate]; norm_num⟩,
   (h.2 sampleReservedRec
     (by simp [analyze_reserved_instance, sampleReservedCosts, sampleResource,
               sampleReservedRec, List.sum_replicate]; norm_num)).2⟩

/-- `_validate_recommendation` returns valid exactly when the minimum
savings and confidence thresholds are both met. -/
theorem validate_recommendation_eq_true (cfg : MLPipelineConfig) (r : Recommendation) :
    validate_recommendation cfg r = true ↔
      10 ≤ r.potential_savings ∧ cfg.confidence_threshold ≤ r.confidence_score := by
  unfold validate_recommendation
  split_ifs with h1 h2 h2 <;> simp_all [not_lt]

/-- C1: the validator is a strict filter: every recommendation in the
validated and finalized output appears in the input list, has potential
savings of at least the fixed minimum 10, and has a confidence score at
least the configured threshold. -/
theorem run_validation_subset (cfg : MLPipelineConfig) (recs : List Recommendation) :
    ∀ r ∈ run_validation_and_finalization cfg recs,
      r ∈ recs ∧ 10 ≤ r.potential_savings ∧
        cfg.confidence_threshold ≤ r.confidence_score := by
  intro r hr
  unfold run_validation_and_finalization at hr
  rw [(List.perm_insertionSort finalOrder _).mem_iff, List.mem_filter] at hr
  obtain ⟨hmem, hvalid⟩ := hr
  obtain ⟨h1, h2⟩ := (validate_recommendation_eq_true cfg r).mp hvalid
  exact ⟨hmem, h1, h2⟩

/-- Witness for C1: with the default configuration, the reserved-capacity
sample recommendation (savings 60, confidence 0.9) survives validation and
satisfies both thresholds. -/
theorem run_validation_subset_witness :
    sampleReservedRec ∈ [sampleReservedRec] ∧
    10 ≤ sampleReservedRec.potential_savings ∧
    defaultConfig.confidence_threshold ≤ sampleReservedRec.confidence_score :=
  run_validation_subset defaultConfig [sampleReservedRec] sampleReservedRec
    (by simp [run_validation_and_finalization, validate_recommendation,
              sampleReservedRec, defaultConfig, List.insertionSort]
        norm_num)

/-- C10 (part of the stage contract): every recommendation emitted by the
recommendation-generation stage already passed the stage's confidence
filter, so the validator's confidence check never rejects it and only the
minimum-savings check can shrink the validated set. -/
theorem stage_output_confidence (cfg : MLPipelineConfig)
    (pattern_analysis : List PatternAnalysisEntry) (cost_entries : List CostEntry) :
    (∀ r ∈ run_recommendation_generation cfg pattern_analysis cost_entries,
      cfg.confidence_threshold ≤ r.confidence_score) ∧
    (run_recommendation_generation cfg pattern_analysis cost_entries).filter
        (validate_recommendation cfg) =
      (run_recommendation_generation cfg pattern_analysis cost_entries).filter
        (fun r => 10 ≤ r.potential_savings) := by
  have hconf : ∀ r ∈ run_recommendation_generation cfg pattern_analysis cost_entries,
      cfg.confidence_threshold ≤ r.confidence_score := by
    intro r hr
    unfold run_recommendation_generation at hr
    rw [List.mem_flatMap] at hr
    obtain ⟨a, -, hr⟩ := hr
    simp only [stage_recommendations_for] at hr
    have hr' := List.mem_of_mem_take hr
    rw [List.mem_map] at hr'
    obtain ⟨r', hr', rfl⟩ := hr'
    rw [List.mem_filter] at hr'
    have := hr'.2
    simp only [decide_eq_true_eq] at this
    exact this
  refine ⟨hconf, List.filter_congr ?_⟩
  intro r hr
  have h2 := hconf r hr
  simp only [validate_recommendation]
  rw [if_neg (not_lt.mpr h2)]
  by_cases h1 : r.potential_savings < 10
  · simp [h1, not_le.mpr h1]
  · simp [h1, not_lt.mp h1]

theorem analyze_resource_sample :
    analyze_resource sampleResource [(sampleResource.id, emptyUsagePatterns)]
      sampleReservedCosts = [sampleReservedRec] := by
  have h1 : analyze_rightsizing sampleResource emptyUsagePatterns = none := by decide
  have h2 : analyze_reserved_instance sampleResource sampleReservedCosts =
      some sampleReservedRec := by
    simp [analyze_reserved_instance, sampleReservedCosts, sampleResource,
          sampleReservedRec, List.sum_replicate]
    norm_num
  have h3 : analyze_spot_instance sampleResource emptyUsagePatterns = none := by
    simp [analyze_spot_instance, sampleResource, emptyUsagePatterns]
  have h4 : analyze_storage_optimization sampleResource emptyUsagePatterns = none := by
    decide
  have h5 : analyze_unused_resource sampleResource emptyUsagePatterns = none := by
    decide
  simp [analyze_resource, h1, h2, h3, h4, h5]

theorem generate_recommendations_sample :
    generate_recommendations [sampleResource] [(sampleResource.id, emptyUsagePatterns)]
      sampleReservedCosts = [sampleRankedRec] := by
  have hlvl : calculate_priority_level sampleReservedRec = "medium" := by
    simp [calculate_priority_level, sampleReservedRec]
    norm_num
  simp [generate_recommendations, analyze_resource_sample, List.insertionSort,
        List.orderedInsert, assign_ranks, hlvl, sampleRankedRec]

theorem stage_sample :
    run_recommendation_generation defaultConfig [sampleAnalysis] sampleReservedCosts =
      [sampleEnrichedRec] := by
  have hfilter : sampleReservedCosts.filter
      (fun c => c.resource_id == sampleResource.id) = sampleReservedCosts := by
    simp [sampleReservedCosts, sampleResource]
  simp only [run_recommendation_generation, stage_recommendations_for, List.flatMap_cons,
             List.flatMap_nil, List.append_nil, sampleAnalysis, hfilter]
  rw [generate_recommendations_sample]
  have hp : ((0.6 : ℚ) ≤ 0.9) := by norm_num
  simp [sampleRankedRec, sampleReservedRec, defaultConfig, enrich,
        sampleEnrichedRec, sampleResource, hp]

/-- Witness for C8: the ranked sample recommendation produced by the
engine on the sample inputs satisfies the bounds. -/
theorem generate_recommendations_bounds_witness :
    0 ≤ sampleRankedRec.potential_savings ∧
    0 ≤ sampleRankedRec.confidence_score ∧ sampleRankedRec.confidence_score ≤ 1 :=
  generate_recommendations_bounds [sampleResource]
    [(sampleResource.id, emptyUsagePatterns)] sampleReservedCosts
    (by intro res hres
        rw [List.mem_singleton] at hres
        subst hres
        norm_num [sampleResource])
    sampleRankedRec
    (by rw [generate_recommendations_sample]; exact List.mem_singleton_self _)

/-- Witness for C10: the concrete stage output element has confidence at
least the default threshold. -/
theorem stage_output_confidence_witness :
    defaultConfig.confidence_threshold ≤ sampleEnrichedRec.confidence_score :=
  (stage_output_confidence defaultConfig [sampleAnalysis] sampleReservedCosts).1
    sampleEnrichedRec (by rw [stage_sample]; exact List.mem_singleton_self _)

theorem mem_stage_recommendations_for_resource_id
    {r : Recommendation} {cfg : MLPipelineConfig} {cost_entries : List CostEntry}
    {analysis : PatternAnalysisEntry}
    (h : r ∈ stage_recommendations_for cfg cost_entries analysis) :
    r.resource_id = analysis.resource.id := by
  simp only [stage_recommendations_for] at h
  have h' := List.mem_of_mem_take h
  rw [List.mem_map] at h'
  obtain ⟨r', hr', rfl⟩ := h'
  rw [List.mem_filter] at hr'
  have hmem := hr'.1
  unfold generate_recommendations at hmem
  obtain ⟨r'', hr'', -, -, hid⟩ := mem_assign_ranks hmem
  rw [(List.perm_insertionSort savingsOrder _).mem_iff, List.mem_flatMap] at hr''
  obtain ⟨res, hres, hmem'⟩ := hr''
  rw [List.mem_singleton] at hres
  subst hres
  have : r''.resource_id = analysis.resource.id := by
    rcases mem_analyze_resource hmem' with h | h | h | h | h
    · exact (analyze_rightsizing_some _ _ _ h).2.2
    · exact (analyze_reserved_instance_some _ _ _ h).2.2
    · exact (analyze_spot_instance_some _ _ _ h).2.2
    · exact (analyze_storage_optimization_some _ _ _ h).2.2
    · exact (analyze_unused_resource_some _ _ _ h).2.2
  exact hid.trans this

theorem filter_run_recommendation_generation
    (cfg : MLPipelineConfig) (cost_entries : List CostEntry) :
    ∀ (l : List PatternAnalysisEntry),
      (l.map (fun a => a.resource.id)).Nodup →
      ∀ a ∈ l,
        (l.flatMap (stage_recommendations_for cfg cost_entries)).filter
            (fun r => r.resource_id == a.resource.id) =
          stage_recommendations_for cfg cost_entries a := by
  intro l
  induction l with
  | nil => intro _ a ha; cases ha
  | cons b l ih =>
    intro hnd a ha
    rw [List.map_cons, List.nodup_cons] at hnd
    rw [List.flatMap_cons, List.filter_append]
    rcases List.mem_cons.mp ha with rfl | ha'
    · have hb : (stage_recommendations_for cfg cost_entries a).filter
          (fun r => r.resource_id == a.resource.id) =
          stage_recommendations_for cfg cost_entries a := by
        rw [List.filter_eq_self]
        intro r hr
        rw [mem_stage_recommendations_for_resource_id hr]
        exact beq_self_eq_true _
      have hrest : (l.flatMap (stage_recommendations_for cfg cost_entries)).filter
          (fun r => r.resource_id == a.resource.id) = [] := by
        rw [List.filter_eq_nil_iff]
        intro r hr
        rw [List.mem_flatMap] at hr
        obtain ⟨c, hc, hrc⟩ := hr
        rw [mem_stage_recommendations_for_resource_id hrc]
        intro hbeq
        exact hnd.1 (by
          rw [beq_iff_eq] at hbeq
          rw [← hbeq]
          exact List.mem_map_of_mem (fun a => a.resource.id) hc)
      rw [hb, hrest, List.append_nil]
    · have hb : (stage_recommendations_for cfg cost_entries b).filter
          (fun r => r.resource_id == a.resource.id) = [] := by
        rw [List.filter_eq_nil_iff]
        intro r hr
        rw [mem_stage_recommendations_for_resource_id hr]
        intro hbeq
        exact hnd.1 (by
          rw [beq_iff_eq] at hbeq
          rw [hbeq]
          exact List.mem_map_of_mem (fun a => a.resource.id) ha')
      rw [hb, ih hnd.2 a ha', List.nil_append]

/-- C9: when the analyzed resources have pairwise-distinct ids, the stage
output restricted to one resource is exactly that resource's filtered
recommendation list truncated at the front to
`max_recommendations_per_resource`, so at most that many of the resource's
recommendations appear. -/
theorem stage_per_resource_cap (cfg : MLPipelineConfig)
    (pattern_analysis : List PatternAnalysisEntry) (cost_entries : List CostEntry)
    (hnodup : (pattern_analysis.map (fun a => a.resource.id)).Nodup) :
    ∀ a ∈ pattern_analysis,
      (run_recommendation_generation cfg pattern_analysis cost_entries).filter
          (fun r => r.resource_id == a.resource.id) =
        (((generate_recommendations [a.resource]
              [(a.resource.id, a.usage_patterns)]
              (cost_entries.filter (fun c => c.resource_id == a.resource.id))).filter
            (fun r => cfg.confidence_threshold ≤ r.confidence_score)).map
          (enrich a.resource)).take cfg.max_recommendations_per_resource ∧
      ((run_recommendation_generation cfg pattern_analysis cost_entries).filter
          (fun r => r.resource_id == a.resource.id)).length ≤
        cfg.max_recommendations_per_resource := by
  intro a ha
  have heq := filter_run_recommendation_generation cfg cost_entries
    pattern_analysis hnodup a ha
  constructor
  · exact heq
  · simp only [run_recommendation_generation]
    rw [heq]
    simp only [stage_recommendations_for]
    exact (List.length_take _ _).le.trans (min_le_left _ _)

/-- Witness for C9 at a concrete run with a single analyzed resource and
the default cap of 3. -/
theorem stage_per_resource_cap_witness :
    ((run_recommendation_generation defaultConfig [sampleAnalysis]
        sampleReservedCosts).filter
      (fun r => r.resource_id == sampleAnalysis.resource.id)).length ≤
      defaultConfig.max_recommendations_per_resource :=
  (stage_per_resource_cap defaultConfig [sampleAnalysis] sampleReservedCosts
    (by simp) sampleAnalysis (List.mem_singleton_self _)).2

theorem assign_ranks_length : ∀ (n : ℕ) (l : List Recommendation),
    (assign_ranks n l).length = l.length := by
  intro n l
  induction l generalizing n with
  | nil => rfl
  | cons x xs ih => simp [assign_ranks, ih]

theorem sorted_assign_ranks : ∀ (n : ℕ) (l : List Recommendation),
    List.Pairwise savingsOrder l → List.Pairwise savingsOrder (assign_ranks n l) := by
  intro n l
  induction l generalizing n with
  | nil => intro h; exact List.Pairwise.nil
  | cons x xs ih =>
    intro h
    rw [List.pairwise_cons] at h
    simp only [assign_ranks]
    rw [List.pairwise_cons]
    constructor
    · intro y hy
      obtain ⟨y', hy', hs, -, -⟩ := mem_assign_ranks hy
      unfold savingsOrder
      rw [hs]
      exact h.1 y' hy'
    · exact ih (n + 1) h.2

theorem assign_ranks_get : ∀ (n : ℕ) (l : List Recommendation) (i : ℕ)
    (h : i < (assign_ranks n l).length) (h' : i < l.length),
    (assign_ranks n l).get ⟨i, h⟩ =
      { l.get ⟨i, h'⟩ with
          priority_rank := some (n + i),
          priority_level := some (calculate_priority_level (l.get ⟨i, h'⟩)) } := by
  intro n l
  induction l generalizing n with
  | nil => intro i h h'; exact absurd h' (Nat.not_lt_zero i)
  | cons x xs ih =>
    intro i h h'
    cases i with
    | zero => simp [assign_ranks]
    | succ j =>
      have hj : j < (assign_ranks (n + 1) xs).length := by
        simp only [assign_ranks, List.length_cons] at h
        omega
      have hj' : j < xs.length := by
        rw [assign_ranks_length] at hj
        exact hj
      simp only [assign_ranks, List.get_cons_succ]
      rw [ih (n + 1) j hj hj']
      have : n + 1 + j = n + (j + 1) := by omega
      rw [this]

/-- C3 (amended): within one call of the recommendation engine — which the
pipeline stage makes once per resource — the returned list is sorted
descending by potential savings, each element's priority rank is its
1-based position in that sorted list, and each element's priority level is
computed by `_calculate_priority_level` from its own savings, confidence
and complexity. -/
theorem generate_recommendations_sorted_ranked (resources : List Resource)
    (usage_patterns : List (String × UsagePatterns)) (cost_data : List CostEntry) :
    List.Sorted savingsOrder
      (generate_recommendations resources usage_patterns cost_data) ∧
    ∀ (i : ℕ) (h : i < (generate_recommendations resources usage_patterns cost_data).length),
      ((generate_recommendations resources usage_patterns cost_data).get ⟨i, h⟩).priority_rank
          = some (i + 1) ∧
      ((generate_recommendations resources usage_patterns cost_data).get ⟨i, h⟩).priority_level
          = some (calculate_priority_level
              ((generate_recommendations resources usage_patterns cost_data).get ⟨i, h⟩)) := by
  constructor
  · unfold generate_recommendations
    exact sorted_assign_ranks 1 _ (List.sorted_insertionSort savingsOrder _)
  · intro i h
    unfold generate_recommendations at h ⊢
    have h' : i < (List.insertionSort savingsOrder
        (resources.flatMap (fun resource =>
          analyze_resource resource usage_patterns cost_data))).length := by
      rw [← assign_ranks_length 1]
      exact h
    rw [assign_ranks_get 1 _ i h h']
    exact ⟨by rw [Nat.add_comm], rfl⟩

/-- Witness for C3 (amended) at the sample input: the single returned
recommendation carries priority rank 1. -/
theorem generate_recommendations_sorted_ranked_witness :
    ∃ h : 0 < (generate_recommendations [sampleResource]
        [(sampleResource.id, emptyUsagePatterns)] sampleReservedCosts).length,
      ((generate_recommendations [sampleResource]
          [(sampleResource.id, emptyUsagePatterns)] sampleReservedCosts).get
        ⟨0, h⟩).priority_rank = some 1 := by
  have hlen : 0 < (generate_recommendations [sampleResource]
      [(sampleResource.id, emptyUsagePatterns)] sampleReservedCosts).length := by
    rw [generate_recommendations_sample]
    simp
  exact ⟨hlen,
    ((generate_recommendations_sorted_ranked [sampleResource]
      [(sampleResource.id, emptyUsagePatterns)] sampleReservedCosts).2 0 hlen).1⟩

theorem generate_recommendations_sampleB :
    generate_recommendations [resourceB] [(resourceB.id, emptyUsagePatterns)]
      reservedCostsB =
      [{ reservedRecB with priority_rank := some 1, priority_level := some "medium" }] := by
  have h1 : analyze_rightsizing resourceB emptyUsagePatterns = none := by decide
  have h2 : analyze_reserved_instance resourceB reservedCostsB = some reservedRecB := by
    simp [analyze_reserved_instance, reservedCostsB, resourceB,
          reservedRecB, List.sum_replicate]
    norm_num
  have h3 : analyze_spot_instance resourceB emptyUsagePatterns = none := by
    simp [analyze_spot_instance, resourceB, emptyUsagePatterns]
  have h4 : analyze_storage_optimization resourceB emptyUsagePatterns = none := by decide
  have h5 : analyze_unused_resource resourceB emptyUsagePatterns = none := by decide
  have hres : analyze_resource resourceB [(resourceB.id, emptyUsagePatterns)]
      reservedCostsB = [reservedRecB] := by
    simp [analyze_resource, h1, h2, h3, h4, h5]
  have hlvl : calculate_priority_level reservedRecB = "medium" := by
    simp [calculate_priority_level, reservedRecB]
    norm_num
  simp [generate_recommendations, hres, List.insertionSort,
        List.orderedInsert, assign_ranks, hlvl]

/-- The concrete two-resource stage output: resource "r1" first with
savings 60, resource "r2" second with savings 120, both with priority
rank 1. -/
theorem stage_sample_two :
    run_recommendation_generation defaultConfig [sampleAnalysis, analysisB]
      (sampleReservedCosts ++ reservedCostsB) = [sampleEnrichedRec, enrichedRecB] := by
  have hfA : (sampleReservedCosts ++ reservedCostsB).filter
      (fun c => c.resource_id == sampleResource.id) = sampleReservedCosts := by
    simp [sampleReservedCosts, reservedCostsB, sampleResource]
  have hfB : (sampleReservedCosts ++ reservedCostsB).filter
      (fun c => c.resource_id == resourceB.id) = reservedCostsB := by
    simp [sampleReservedCosts, reservedCostsB, resourceB]
  have hp : ((0.6 : ℚ) ≤ 0.9) := by norm_num
  simp only [run_recommendation_generation, stage_recommendations_for, List.flatMap_cons,
             List.flatMap_nil, List.append_nil, sampleAnalysis, analysisB, hfA, hfB]
  rw [generate_recommendations_sample, generate_recommendations_sampleB]
  simp [sampleRankedRec, sampleReservedRec, reservedRecB, defaultConfig, enrich,
        sampleEnrichedRec, enrichedRecB, sampleResource, resourceB, hp]

/-- Counterexample to C3 as stated: in a run with two analyzed resources,
the stage's combined recommendation list is *not* sorted descending by
potential savings (the first element has savings 60, the second 120), so
the globally-sorted/globally-ranked reading of the claim fails on the
pipeline, which calls the recommender once per resource. -/
theorem stage_combined_not_sorted :
    ¬ (List.Sorted savingsOrder
        (run_recommendation_generation defaultConfig [sampleAnalysis, analysisB]
          (sampleReservedCosts ++ reservedCostsB)) ∧
       ∀ (i : ℕ) (h : i < (run_recommendation_generation defaultConfig
           [sampleAnalysis, analysisB] (sampleReservedCosts ++ reservedCostsB)).length),
         ((run_recommendation_generation defaultConfig [sampleAnalysis, analysisB]
             (sampleReservedCosts ++ reservedCostsB)).get ⟨i, h⟩).priority_rank
           = some (i + 1)) := by
  rintro ⟨hsorted, -⟩
  rw [stage_sample_two] at hsorted
  have h := (List.sorted_cons.mp hsorted).1 enrichedRecB (List.mem_singleton_self _)
  unfold savingsOrder at h
  norm_num [sampleEnrichedRec, sampleRankedRec, sampleReservedRec, enrichedRecB,
            reservedRecB] at h

/-- C2: a failure of any of the four mandatory stages halts the run with
an error-status report whose stage-result list is exactly what had
accumulated up to and including the failed stage; when all four mandatory
stages succeed, the run reports success regardless of the outcomes of the
optional risk-assessment and performance-estimation stages. -/
theorem run_pipeline_fatal_optional (cfg : MLPipelineConfig) (o : StageOutcomes) :
    (o.data_ingestion = false →
      run_pipeline cfg o =
        { status := "error",
          pipeline_results := [⟨.data_ingestion, false⟩] }) ∧
    (o.data_ingestion = true → o.feature_engineering = false →
      run_pipeline cfg o =
        { status := "error",
          pipeline_results := [⟨.data_ingestion, true⟩, ⟨.feature_engineering, false⟩] }) ∧
    (o.data_ingestion = true → o.feature_engineering = true →
      o.pattern_analysis = false →
      run_pipeline cfg o =
        { status := "error",
          pipeline_results := [⟨.data_ingestion, true⟩, ⟨.feature_engineering, true⟩,
            ⟨.pattern_analysis, false⟩] }) ∧
    (o.data_ingestion = true → o.feature_engineering = true →
      o.pattern_analysis = true → o.recommendation_generation = false →
      run_pipeline cfg o =
        { status := "error",
          pipeline_results :=
            [⟨.data_ingestion, true⟩, ⟨.feature_engineering, true⟩,
              ⟨.pattern_analysis, true⟩] ++
            (if cfg.enable_risk_assessment then
              [(⟨.risk_assessment, o.risk_assessment⟩ : StageResult)] else []) ++
            [⟨.recommendation_generation, false⟩] }) ∧
    (o.data_ingestion = true → o.feature_engineering = true →
      o.pattern_analysis = true → o.recommendation_generation = true →
      (run_pipeline cfg o).status = "success") := by
  refine ⟨?_, ?_, ?_, ?_, ?_⟩ <;> intros <;>
      simp_all only [run_pipeline, not_true_eq_false, not_false_eq_true,
        ite_true, ite_false, if_true, if_false] <;>
    by_cases hra : cfg.enable_risk_assessment <;>
      by_cases hpp : cfg.enable_performance_prediction <;>
      simp [hra, hpp]

/-- Witness for C2: with the default configuration and a run where the
mandatory stages succeed through pattern analysis, risk assessment fails
(non-fatally) and recommendation generation fails, the orchestrator
returns an error report listing all five accumulated stage results. -/
theorem run_pipeline_fatal_optional_witness :
    run_pipeline defaultConfig
      { data_ingestion := true, feature_engineering := true,
        pattern_analysis := true, risk_assessment := false,
        recommendation_generation := false, performance_estimation := true,
        validation := true } =
      { status := "error",
        pipeline_results :=
          [⟨.data_ingestion, true⟩, ⟨.feature_engineering, true⟩,
            ⟨.pattern_analysis, true⟩, ⟨.risk_assessment, false⟩,
            ⟨.recommendation_generation, false⟩] } := by
  have h := (run_pipeline_fatal_optional defaultConfig
    { data_ingestion := true, feature_engineering := true,
      pattern_analysis := true, risk_assessment := false,
      recommendation_generation := false, performance_estimation := true,
      validation := true }).2.2.2.1 rfl rfl rfl rfl
  rw [h]
  rfl

theorem perm_any {α : Type} {l1 l2 : List α} (h : l1.Perm l2) (p : α → Bool) :
    l1.any p = l2.any p := by
  cases h1 : l1.any p <;> cases h2 : l2.any p <;> try rfl
  · rw [List.any_eq_true] at h2
    obtain ⟨x, hx, hpx⟩ := h2
    have hx1 : l1.any p = true := List.any_eq_true.mpr ⟨x, h.mem_iff.mpr hx, hpx⟩
    rw [h1] at hx1
    cases hx1
  · rw [List.any_eq_true] at h1
    obtain ⟨x, hx, hpx⟩ := h1
    have hx2 : l2.any p = true := List.any_eq_true.mpr ⟨x, h.mem_iff.mp hx, hpx⟩
    rw [h2] at hx2
    cases hx2

theorem assess_resource_criticality_bounds (resource : Resource) :
    0 ≤ assess_resource_criticality resource ∧ assess_resource_criticality resource ≤ 1 := by
  unfold assess_resource_criticality
  refine ⟨le_min ?_ (by norm_num), min_le_right _ _⟩
  split_ifs <;> norm_num

theorem assess_business_impact_bounds (resource : Resource) :
    0 ≤ assess_business_impact resource ∧ assess_business_impact resource ≤ 1 := by
  unfold assess_business_impact
  have hsum1 : (0 : ℚ) ≤ (resource.tags.map (fun t =>
      (if (["business-unit", "department", "owner"].contains (strLower t.1)) &&
          (["finance", "sales", "customer-service", "operations"].contains (strLower t.2))
        then (0.3 : ℚ) else 0) +
      (if high_impact_tags.contains (strLower t.2) then (0.4 : ℚ) else 0))).sum := by
    apply List.sum_nonneg
    intro x hx
    rw [List.mem_map] at hx
    obtain ⟨t, -, rfl⟩ := hx
    split_ifs <;> norm_num
  have hsum2 : (0 : ℚ) ≤ (resource.tags.map (fun t =>
      if (["pci", "hipaa", "gdpr", "sox", "compliance"]).any
          (fun compliance => strContains (strLower t.2) compliance)
        then (0.3 : ℚ) else 0)).sum := by
    apply List.sum_nonneg
    intro x hx
    rw [List.mem_map] at hx
    obtain ⟨t, -, rfl⟩ := hx
    split_ifs <;> norm_num
  refine ⟨le_min ?_ (by norm_num), min_le_right _ _⟩
  split_ifs <;> linarith

theorem assess_rollback_complexity_bounds (optimization : Optimization) :
    0 ≤ assess_rollback_complexity optimization ∧
    assess_rollback_complexity optimization ≤ 1 := by
  unfold assess_rollback_complexity
  refine ⟨le_min ?_ (by norm_num), min_le_right _ _⟩
  split_ifs <;> norm_num

theorem assess_data_sensitivity_bounds (resource : Resource) :
    0 ≤ assess_data_sensitivity resource ∧ assess_data_sensitivity resource ≤ 1 := by
  unfold assess_data_sensitivity
  refine ⟨le_min ?_ (by norm_num), min_le_right _ _⟩
  split_ifs <;> norm_num

theorem assess_uptime_requirements_bounds (resource : Resource) :
    0 ≤ assess_uptime_requirements resource ∧
    assess_uptime_requirements resource ≤ 1 := by
  unfold assess_uptime_requirements
  have hsum : (0 : ℚ) ≤ (resource.tags.map (fun t =>
      if strContains (strLower t.1) "sla" then
        (if strContains (strLower t.2) "99.9" || strContains (strLower t.2) "high"
          then (0.5 : ℚ)
          else if strContains (strLower t.2) "99" then 0.3 else 0)
      else 0)).sum := by
    apply List.sum_nonneg
    intro x hx
    rw [List.mem_map] at hx
    obtain ⟨t, -, rfl⟩ := hx
    split_ifs <;> norm_num
  refine ⟨le_min ?_ (by norm_num), min_le_right _ _⟩
  split_ifs <;> linarith

theorem assess_resource_criticality_perm (resource : Resource) (tags' : List (String × String))
    (h : resource.tags.Perm tags') :
    assess_resource_criticality { resource with tags := tags' } =
      assess_resource_criticality resource := by
  unfold assess_resource_criticality
  dsimp only
  rw [perm_any h.symm]

theorem assess_business_impact_perm (resource : Resource) (tags' : List (String × String))
    (h : resource.tags.Perm tags') :
    assess_business_impact { resource with tags := tags' } =
      assess_business_impact resource := by
  unfold assess_business_impact
  dsimp only
  rw [List.Perm.sum_eq ((h.symm).map _), List.Perm.sum_eq ((h.symm).map _)]

theorem assess_data_sensitivity_perm (resource : Resource) (tags' : List (String × String))
    (h : resource.tags.Perm tags') :
    assess_data_sensitivity { resource with tags := tags' } =
      assess_data_sensitivity resource := by
  unfold assess_data_sensitivity
  dsimp only
  rw [perm_any h.symm]

theorem assess_uptime_requirements_perm (resource : Resource) (tags' : List (String × String))
    (h : resource.tags.Perm tags') :
    assess_uptime_requirements { resource with tags := tags' } =
      assess_uptime_requirements resource := by
  unfold assess_uptime_requirements
  dsimp only
  rw [List.Perm.sum_eq ((h.symm).map _)]

/-- C5: the aggregate risk score is the fixed-weight combination
(0.3, 0.3, 0.2, 0.1, 0.1) of the five component scores, each of which is
capped in [0, 1]; hence the aggregate lies in [0, 1] however many
components saturate, and it is invariant under any reordering of the
resource's tag list (the factors themselves are fixed-order conditionals
on unchanging data). -/
theorem assess_risk_score_spec (resource : Resource) (optimization : Optimization) :
    (assess_risk_score resource optimization =
      assess_resource_criticality resource * 0.3 +
      assess_business_impact resource * 0.3 +
      assess_rollback_complexity optimization * 0.2 +
      assess_data_sensitivity resource * 0.1 +
      assess_uptime_requirements resource * 0.1) ∧
    (0 ≤ assess_risk_score resource optimization ∧
      assess_risk_score resource optimization ≤ 1) ∧
    (∀ tags' : List (String × String), resource.tags.Perm tags' →
      assess_risk_score { resource with tags := tags' } optimization =
        assess_risk_score resource optimization) := by
  refine ⟨rfl, ⟨?_, ?_⟩, ?_⟩
  · have h1 := assess_resource_criticality_bounds resource
    have h2 := assess_business_impact_bounds resource
    have h3 := assess_rollback_complexity_bounds optimization
    have h4 := assess_data_sensitivity_bounds resource
    have h5 := assess_uptime_requirements_bounds resource
    unfold assess_risk_score
    linarith [h1.1, h2.1, h3.1, h4.1, h5.1]
  · have h1 := assess_resource_criticality_bounds resource
    have h2 := assess_business_impact_bounds resource
    have h3 := assess_rollback_complexity_bounds optimization
    have h4 := assess_data_sensitivity_bounds resource
    have h5 := assess_uptime_requirements_bounds resource
    unfold assess_risk_score
    linarith [h1.2, h2.2, h3.2, h4.2, h5.2]
  · intro tags' h
    unfold assess_risk_score
    rw [assess_resource_criticality_perm resource tags' h,
        assess_business_impact_perm resource tags' h,
        assess_data_sensitivity_perm resource tags' h,
        assess_uptime_requirements_perm resource tags' h]

/-- Witness for C5: the aggregate score of a resource with two tags is
unchanged when the two tags are swapped, and lies in [0, 1]. -/
theorem assess_risk_score_spec_witness :
    (assess_risk_score
        { riskResource with tags := [("sla", "99.9"), ("environment", "prod")] }
        sampleOptimization =
      assess_risk_score riskResource sampleOptimization) ∧
    0 ≤ assess_risk_score riskResource sampleOptimization :=
  ⟨(assess_risk_score_spec riskResource sampleOptimization).2.2
      [("sla", "99.9"), ("environment", "prod")] (List.Perm.swap _ _ _),
   (assess_risk_score_spec riskResource sampleOptimization).2.1.1⟩

end CloudCostOpt
